import Mathlib

/-!
Shallow embedding of the EduTrack SaaS backend (src/main.py and
src/schemas.py): multi-tenant CRUD handlers over a document store.

Documents are association lists from string keys to BSON-like values,
with Python-dict semantics (unique keys, insertion order, in-place
replacement on assignment). The Mongo ObjectId type is carried as its
canonical 24-character lowercase hex string, which is a faithful carrier
since ObjectId is bijective with that representation. Monetary amounts
are modelled as integers: no handler performs arithmetic on them, they
are inert payload data.
-/

set_option autoImplicit false

/-- BSON-like field values as they appear in the handlers of src/main.py. -/
inductive Value where
  | str : String → Value
  | oid : String → Value
  | num : Int → Value
  | bool : Bool → Value
  | arr : List String → Value
  | null : Value
deriving DecidableEq, Repr

/-- A document: a Python dict, as an association list. -/
abbrev Doc := List (String × Value)

/-- Dictionary lookup, first (unique) binding wins. -/
def getField (d : Doc) (k : String) : Option Value :=
  match d with
  | [] => none
  | (k2, v) :: rest => if k2 = k then some v else getField rest k

/-- Dictionary assignment: replace in place when the key exists, append otherwise. -/
def setField (d : Doc) (k : String) (v : Value) : Doc :=
  match d with
  | [] => [(k, v)]
  | (k2, w) :: rest => if k2 = k then (k2, v) :: rest else (k2, w) :: setField rest k v

/-- Dictionary `pop`: remove the binding of a key. -/
def eraseField (d : Doc) (k : String) : Doc :=
  match d with
  | [] => []
  | (k2, v) :: rest => if k2 = k then eraseField rest k else (k2, v) :: eraseField rest k

/-- Python `str()` applied to a stored value; in the code it is only ever
applied to a Mongo ObjectId, whose string form is its hex representation. -/
def strOfValue : Value → String
  | Value.str s => s
  | Value.oid s => s
  | Value.num n => toString n
  | Value.bool b => if b then "True" else "False"
  | Value.arr _ => "list"
  | Value.null => "None"

/-- The validity check of `bson.ObjectId.is_valid` on a string input:
exactly 24 hexadecimal characters. -/
def isHexChar (c : Char) : Bool :=
  (decide ('0' ≤ c) && decide (c ≤ '9')) ||
  (decide ('a' ≤ c) && decide (c ≤ 'f')) ||
  (decide ('A' ≤ c) && decide (c ≤ 'F'))

/-- Check of `ObjectId.is_valid` for the string identifiers arriving in URL paths. -/
def objectIdIsValid (s : String) : Bool :=
  s.length == 24 && s.toList.all isHexChar

/-- ASCII lowercase of one character, as Python `str.lower()` acts on hex text. -/
def lowerChar (c : Char) : Char :=
  if decide ('A' ≤ c) && decide (c ≤ 'Z') then Char.ofNat (c.toNat + 32) else c

/-- Canonical form of an ObjectId built from a valid hex string: ObjectIds
compare by their bytes, so hex case is normalised away. -/
def canonOid (s : String) : String := String.mk (s.data.map lowerChar)

/-- The store: named collections of documents (spec section 6 collaborator). -/
abbrev Store := List (String × List Doc)

/-- Documents of a named collection (empty when the collection is absent). -/
def getColl (s : Store) (c : String) : List Doc :=
  match s with
  | [] => []
  | (name, docs) :: rest => if name = c then docs else getColl rest c

/-- Replace the documents of a named collection, creating it when absent. -/
def setColl (s : Store) (c : String) (docs : List Doc) : Store :=
  match s with
  | [] => [(c, docs)]
  | (name, d0) :: rest =>
    if name = c then (name, docs) :: rest else (name, d0) :: setColl rest c docs

/-- Mongo equality-filter semantics: every filter field must be present with
the given value. -/
def matchesFilter (filt : Doc) (d : Doc) : Bool :=
  filt.all (fun kv => decide (getField d kv.1 = some kv.2))

/-- Mongo `$set`: write each field of the patch into the document. -/
def applySet (d : Doc) (upd : Doc) : Doc :=
  upd.foldl (fun acc kv => setField acc kv.1 kv.2) d

/-- Update the first document matching the filter; return the new list and
the matched count (`update_one` semantics). -/
def updateFirst (docs : List Doc) (filt : Doc) (upd : Doc) : List Doc × Nat :=
  match docs with
  | [] => ([], 0)
  | d :: rest =>
    if matchesFilter filt d then (applySet d upd :: rest, 1)
    else
      let r := updateFirst rest filt upd
      (d :: r.1, r.2)

/-- Remove the first document matching the filter; return the new list and
the deleted count (`delete_one` semantics). -/
def deleteFirst (docs : List Doc) (filt : Doc) : List Doc × Nat :=
  match docs with
  | [] => ([], 0)
  | d :: rest =>
    if matchesFilter filt d then (rest, 1)
    else
      let r := deleteFirst rest filt
      (d :: r.1, r.2)

/-- The collaborator call `db[coll].update_one(filter, set)` of spec section 6. -/
def update_one (s : Store) (c : String) (filt : Doc) (upd : Doc) : Store × Nat :=
  let r := updateFirst (getColl s c) filt upd
  (setColl s c r.1, r.2)

/-- The collaborator call `db[coll].delete_one(filter)` of spec section 6. -/
def delete_one (s : Store) (c : String) (filt : Doc) : Store × Nat :=
  let r := deleteFirst (getColl s c) filt
  (setColl s c r.1, r.2)

/-- Modelled from the spec: `create_document` lives in the `database` module,
which is not under src/. Spec section 6 gives the collaborator contract
`insertOne(collection, document) → id`; we model insertion of the document
carrying a caller-supplied fresh native identifier, returning its string form. -/
def create_document (s : Store) (freshId : String) (c : String) (data : Doc) : Store × String :=
  (setColl s c (getColl s c ++ [setField data "_id" (Value.oid freshId)]), freshId)

/-- Modelled from the spec: `get_documents` lives in the `database` module,
which is not under src/. Spec sections 4.3 and 6 give the contract
`find(collection, filter, limit) → sequence of documents` returning the
documents matching the filter, up to the limit, in natural order. -/
def get_documents (s : Store) (c : String) (filt : Doc) (limit : Nat) : List Doc :=
  ((getColl s c).filter (matchesFilter filt)).take limit

/-! HTTP error model and shared request utilities from src/main.py. -/

/-- A FastAPI `HTTPException` as raised by the handlers: status code and detail. -/
structure HTTPError where
  status : Nat
  detail : String
deriving DecidableEq, Repr

/-- Python `str()` of an `HTTPException`: status and detail. -/
def strOfError (e : HTTPError) : String :=
  toString e.status ++ ": " ++ e.detail

/-- The broad `except Exception` wrapper used by the handlers: any exception,
HTTPException included, becomes a 503 with the stringified cause. -/
def wrap503 (e : HTTPError) : HTTPError :=
  ⟨503, "Database unavailable: " ++ strOfError e⟩

/-- Detail of the missing-tenant validation error raised by `_tenant_filter`. -/
def missingTenantMsg : String :=
  "Missing tenant_id. Provide x-tenant-id header or tenant_id query param."

/-- The missing-tenant error itself: status 400. -/
def missingTenant400 : HTTPError := ⟨400, missingTenantMsg⟩

/-- Python `x_tenant_id or tenant_id`: the header wins unless it is `None` or
empty, in which case the query parameter is used. -/
def resolveTenant (x_tenant_id tenant_id : Option String) : Option String :=
  match x_tenant_id with
  | some s => if s = "" then tenant_id else some s
  | none => tenant_id

/-- The `_tenant_filter` utility: fails closed with a 400 when the tenant is
absent or empty, otherwise builds the tenant-scoping filter. -/
def tenant_filter (t : Option String) : Except HTTPError Doc :=
  match t with
  | none => Except.error missingTenant400
  | some s =>
    if s = "" then Except.error missingTenant400
    else Except.ok [("tenant_id", Value.str s)]

/-- The `_doc_with_id` response shaper on a dict: empty input is returned
unchanged; otherwise the internal `_id` binding, when present, is popped and
its string form is assigned to the public `id` field. -/
def doc_with_id (doc : Doc) : Doc :=
  if doc = [] then doc
  else
    match getField doc "_id" with
    | some v => setField (eraseField doc "_id") "id" (Value.str (strOfValue v))
    | none => doc

/-- The `_doc_with_id` shaper including the Python `None` input, which is
returned unchanged. -/
def doc_with_id_opt (doc : Option Doc) : Option Doc :=
  doc.map doc_with_id

/-! Payload models of src/main.py (Pydantic `BaseModel`s) and their
`model_dump()` images. -/

/-- Dump of an optional string field: Python `None` dumps as null. -/
def optStr : Option String → Value
  | none => Value.null
  | some s => Value.str s

/-- Dump of an optional list-of-strings field. -/
def optList : Option (List String) → Value
  | none => Value.null
  | some xs => Value.arr xs

/-- The `CreateStudent` payload model. -/
structure CreateStudent where
  first_name : String
  last_name : String
  email : Option String := none
  grade : Option String := none
  dob : Option String := none
  parent_ids : Option (List String) := some []
  class_ids : Option (List String) := some []
  status : Option String := some "active"
deriving DecidableEq, Repr

/-- `CreateStudent.model_dump()`. -/
def dumpCreateStudent (p : CreateStudent) : Doc :=
  [("first_name", Value.str p.first_name), ("last_name", Value.str p.last_name),
   ("email", optStr p.email), ("grade", optStr p.grade), ("dob", optStr p.dob),
   ("parent_ids", optList p.parent_ids), ("class_ids", optList p.class_ids),
   ("status", optStr p.status)]

/-- The `UpdateStudent` payload model: every field optional, defaulting to null. -/
structure UpdateStudent where
  first_name : Option String := none
  last_name : Option String := none
  email : Option String := none
  grade : Option String := none
  dob : Option String := none
  parent_ids : Option (List String) := none
  class_ids : Option (List String) := none
  status : Option String := none
deriving DecidableEq, Repr

/-- `UpdateStudent.model_dump()`. -/
def dumpUpdateStudent (p : UpdateStudent) : Doc :=
  [("first_name", optStr p.first_name), ("last_name", optStr p.last_name),
   ("email", optStr p.email), ("grade", optStr p.grade), ("dob", optStr p.dob),
   ("parent_ids", optList p.parent_ids), ("class_ids", optList p.class_ids),
   ("status", optStr p.status)]

/-- The dict comprehension of `update_student`: keep exactly the fields whose
dumped value is not null. -/
def nonNullFields (d : Doc) : Doc :=
  d.filter (fun kv => decide (kv.2 ≠ Value.null))

/-- The `CreateTeacher` payload model. -/
structure CreateTeacher where
  first_name : String
  last_name : String
  email : String
  subject : Option String := none
  is_admin : Bool := false
deriving DecidableEq, Repr

/-- `CreateTeacher.model_dump()`. -/
def dumpCreateTeacher (p : CreateTeacher) : Doc :=
  [("first_name", Value.str p.first_name), ("last_name", Value.str p.last_name),
   ("email", Value.str p.email), ("subject", optStr p.subject),
   ("is_admin", Value.bool p.is_admin)]

/-- The `CreateClass` payload model. -/
structure CreateClass where
  name : String
  code : String
  teacher_id : Option String := none
  grade_level : Option String := none
  student_ids : Option (List String) := some []
deriving DecidableEq, Repr

/-- `CreateClass.model_dump()`. -/
def dumpCreateClass (p : CreateClass) : Doc :=
  [("name", Value.str p.name), ("code", Value.str p.code),
   ("teacher_id", optStr p.teacher_id), ("grade_level", optStr p.grade_level),
   ("student_ids", optList p.student_ids)]

/-- The `CreateAnnouncement` payload model. -/
structure CreateAnnouncement where
  title : String
  body : String
  audience : String := "all"
deriving DecidableEq, Repr

/-- `CreateAnnouncement.model_dump()`. -/
def dumpCreateAnnouncement (p : CreateAnnouncement) : Doc :=
  [("title", Value.str p.title), ("body", Value.str p.body),
   ("audience", Value.str p.audience)]

/-- The `FeeInvoice` payload model of src/main.py. -/
structure FeeInvoicePayload where
  student_id : String
  amount : Int
  currency : String := "USD"
  due_date : Option String := none
  status : String := "open"
  memo : Option String := none
deriving DecidableEq, Repr

/-- `FeeInvoice.model_dump()`. -/
def dumpFeeInvoice (p : FeeInvoicePayload) : Doc :=
  [("student_id", Value.str p.student_id), ("amount", Value.num p.amount),
   ("currency", Value.str p.currency), ("due_date", optStr p.due_date),
   ("status", Value.str p.status), ("memo", optStr p.memo)]

/-- The `Payment` payload model of src/main.py. -/
structure PaymentPayload where
  invoice_id : String
  amount : Int
  method : String := "stripe"
  reference : Option String := none
deriving DecidableEq, Repr

/-- `Payment.model_dump()`. -/
def dumpPayment (p : PaymentPayload) : Doc :=
  [("invoice_id", Value.str p.invoice_id), ("amount", Value.num p.amount),
   ("method", Value.str p.method), ("reference", optStr p.reference)]

/-! The route handlers of src/main.py. Each takes its request inputs and the
current store, and returns the response (or error) together with the store
after the request. Fresh store-assigned identifiers are passed explicitly. -/

/-- GET /students: resolve tenant, build the tenant filter, query, shape.
The whole body sits in a broad `except Exception` that also catches the
HTTPException raised by `_tenant_filter`, re-raising everything as a 503. -/
def list_students (limit : Nat) (tenant_id x_tenant_id : Option String)
    (s : Store) : Except HTTPError (List Doc) × Store :=
  let t := resolveTenant x_tenant_id tenant_id
  match tenant_filter t with
  | Except.error e => (Except.error (wrap503 e), s)
  | Except.ok filt =>
    (Except.ok ((get_documents s "student" filt limit).map doc_with_id), s)

/-- GET /teachers. -/
def list_teachers (limit : Nat) (tenant_id x_tenant_id : Option String)
    (s : Store) : Except HTTPError (List Doc) × Store :=
  let t := resolveTenant x_tenant_id tenant_id
  match tenant_filter t with
  | Except.error e => (Except.error (wrap503 e), s)
  | Except.ok filt =>
    (Except.ok ((get_documents s "teacher" filt limit).map doc_with_id), s)

/-- GET /classes. -/
def list_classes (limit : Nat) (tenant_id x_tenant_id : Option String)
    (s : Store) : Except HTTPError (List Doc) × Store :=
  let t := resolveTenant x_tenant_id tenant_id
  match tenant_filter t with
  | Except.error e => (Except.error (wrap503 e), s)
  | Except.ok filt =>
    (Except.ok ((get_documents s "class" filt limit).map doc_with_id), s)

/-- GET /announcements. -/
def list_announcements (limit : Nat) (tenant_id x_tenant_id : Option String)
    (s : Store) : Except HTTPError (List Doc) × Store :=
  let t := resolveTenant x_tenant_id tenant_id
  match tenant_filter t with
  | Except.error e => (Except.error (wrap503 e), s)
  | Except.ok filt =>
    (Except.ok ((get_documents s "announcement" filt limit).map doc_with_id), s)

/-- GET /invoices. -/
def list_invoices (limit : Nat) (tenant_id x_tenant_id : Option String)
    (s : Store) : Except HTTPError (List Doc) × Store :=
  let t := resolveTenant x_tenant_id tenant_id
  match tenant_filter t with
  | Except.error e => (Except.error (wrap503 e), s)
  | Except.ok filt =>
    (Except.ok ((get_documents s "feeinvoice" filt limit).map doc_with_id), s)

/-- POST /students: `data = payload.model_dump(); data["tenant_id"] = t` runs
before the tenant check; the check and the insert sit in the broad 503 wrapper. -/
def create_student (freshId : String) (p : CreateStudent)
    (tenant_id x_tenant_id : Option String) (s : Store) :
    Except HTTPError Doc × Store :=
  let t := resolveTenant x_tenant_id tenant_id
  let data := setField (dumpCreateStudent p) "tenant_id" (optStr t)
  match tenant_filter t with
  | Except.error e => (Except.error (wrap503 e), s)
  | Except.ok _ =>
    let r := create_document s freshId "student" data
    (Except.ok [("id", Value.str r.2), ("message", Value.str "Student created")], r.1)

/-- POST /teachers. -/
def create_teacher (freshId : String) (p : CreateTeacher)
    (tenant_id x_tenant_id : Option String) (s : Store) :
    Except HTTPError Doc × Store :=
  let t := resolveTenant x_tenant_id tenant_id
  let data := setField (dumpCreateTeacher p) "tenant_id" (optStr t)
  match tenant_filter t with
  | Except.error e => (Except.error (wrap503 e), s)
  | Except.ok _ =>
    let r := create_document s freshId "teacher" data
    (Except.ok [("id", Value.str r.2), ("message", Value.str "Teacher created")], r.1)

/-- POST /classes. -/
def create_class (freshId : String) (p : CreateClass)
    (tenant_id x_tenant_id : Option String) (s : Store) :
    Except HTTPError Doc × Store :=
  let t := resolveTenant x_tenant_id tenant_id
  let data := setField (dumpCreateClass p) "tenant_id" (optStr t)
  match tenant_filter t with
  | Except.error e => (Except.error (wrap503 e), s)
  | Except.ok _ =>
    let r := create_document s freshId "class" data
    (Except.ok [("id", Value.str r.2), ("message", Value.str "Class created")], r.1)

/-- POST /announcements. -/
def create_announcement (freshId : String) (p : CreateAnnouncement)
    (tenant_id x_tenant_id : Option String) (s : Store) :
    Except HTTPError Doc × Store :=
  let t := resolveTenant x_tenant_id tenant_id
  let data := setField (dumpCreateAnnouncement p) "tenant_id" (optStr t)
  match tenant_filter t with
  | Except.error e => (Except.error (wrap503 e), s)
  | Except.ok _ =>
    let r := create_document s freshId "announcement" data
    (Except.ok [("id", Value.str r.2), ("message", Value.str "Announcement created")], r.1)

/-- POST /invoices. -/
def create_invoice (freshId : String) (p : FeeInvoicePayload)
    (tenant_id x_tenant_id : Option String) (s : Store) :
    Except HTTPError Doc × Store :=
  let t := resolveTenant x_tenant_id tenant_id
  let data := setField (dumpFeeInvoice p) "tenant_id" (optStr t)
  match tenant_filter t with
  | Except.error e => (Except.error (wrap503 e), s)
  | Except.ok _ =>
    let r := create_document s freshId "feeinvoice" data
    (Except.ok [("id", Value.str r.2), ("message", Value.str "Invoice created")], r.1)

/-- PUT /students/id. `_tenant_filter` runs before the try block, so a
missing tenant propagates as a 400; inside the try, the non-null fields are
kept, `_oid` validates the path identifier while the combined filter is
built (HTTPExceptions are re-raised verbatim), and a zero matched count is a
404. On the 404 path the store call has already happened. -/
def update_student (student_id : String) (p : UpdateStudent)
    (tenant_id x_tenant_id : Option String) (s : Store) :
    Except HTTPError Doc × Store :=
  let t := resolveTenant x_tenant_id tenant_id
  match tenant_filter t with
  | Except.error e => (Except.error e, s)
  | Except.ok _ =>
    let updates := nonNullFields (dumpUpdateStudent p)
    if objectIdIsValid student_id then
      let filt : Doc := [("_id", Value.oid (canonOid student_id)), ("tenant_id", optStr t)]
      let r := update_one s "student" filt updates
      if r.2 == 0 then (Except.error ⟨404, "Student not found"⟩, r.1)
      else (Except.ok [("id", Value.str student_id), ("updated", Value.bool true)], r.1)
    else (Except.error ⟨400, "Invalid id"⟩, s)

/-- DELETE /students/id: same shape as the update, with `delete_one`. -/
def delete_student (student_id : String)
    (tenant_id x_tenant_id : Option String) (s : Store) :
    Except HTTPError Doc × Store :=
  let t := resolveTenant x_tenant_id tenant_id
  match tenant_filter t with
  | Except.error e => (Except.error e, s)
  | Except.ok _ =>
    if objectIdIsValid student_id then
      let filt : Doc := [("_id", Value.oid (canonOid student_id)), ("tenant_id", optStr t)]
      let r := delete_one s "student" filt
      if r.2 == 0 then (Except.error ⟨404, "Student not found"⟩, r.1)
      else (Except.ok [("id", Value.str student_id), ("deleted", Value.bool true)], r.1)
    else (Except.error ⟨400, "Invalid id"⟩, s)

/-- POST /payments: record the payment, then best-effort mark the referenced
invoice paid by identifier alone; `_oid` failure on the reference (like any
other exception of the inner try) is swallowed by `except Exception: pass`. -/
def create_payment (freshId : String) (p : PaymentPayload)
    (tenant_id x_tenant_id : Option String) (s : Store) :
    Except HTTPError Doc × Store :=
  let t := resolveTenant x_tenant_id tenant_id
  match tenant_filter t with
  | Except.error e => (Except.error (wrap503 e), s)
  | Except.ok _ =>
    let data := setField (dumpPayment p) "tenant_id" (optStr t)
    let r := create_document s freshId "payment" data
    let s2 :=
      if objectIdIsValid p.invoice_id then
        (update_one r.1 "feeinvoice" [("_id", Value.oid (canonOid p.invoice_id))]
          [("status", Value.str "paid")]).1
      else r.1
    (Except.ok [("id", Value.str r.2), ("message", Value.str "Payment recorded")], s2)

/-! Pydantic validation of incoming JSON bodies, for the payload models whose
validation behaviour the properties talk about. A JSON object is a `Doc`;
unknown keys are ignored, exactly as `BaseModel` does by default. -/

/-- Validation of a required `str` field. -/
def reqStrField (j : Doc) (k : String) : Except String String :=
  match getField j k with
  | some (Value.str s) => Except.ok s
  | some _ => Except.error (k ++ ": input should be a valid string")
  | none => Except.error (k ++ ": field required")

/-- Validation of an `Optional[str]` field with a default. -/
def optStrField (j : Doc) (k : String) (dflt : Option String) :
    Except String (Option String) :=
  match getField j k with
  | some (Value.str s) => Except.ok (some s)
  | some Value.null => Except.ok none
  | some _ => Except.error (k ++ ": input should be a valid string")
  | none => Except.ok dflt

/-- Validation of an `Optional[List[str]]` field with a default. -/
def optListField (j : Doc) (k : String) (dflt : Option (List String)) :
    Except String (Option (List String)) :=
  match getField j k with
  | some (Value.arr xs) => Except.ok (some xs)
  | some Value.null => Except.ok none
  | some _ => Except.error (k ++ ": input should be a valid list")
  | none => Except.ok dflt

/-- Validation of a request body against `CreateStudent` (src/main.py):
`first_name` and `last_name` required strings, the rest optional with the
model defaults, every unknown key — `tenant_id` included — ignored. The
`status` field is a plain `Optional[str]`: no enumeration is checked. -/
def parseCreateStudent (j : Doc) : Except String CreateStudent := do
  let fn ← reqStrField j "first_name"
  let ln ← reqStrField j "last_name"
  let em ← optStrField j "email" none
  let gr ← optStrField j "grade" none
  let bd ← optStrField j "dob" none
  let ps ← optListField j "parent_ids" (some [])
  let cs ← optListField j "class_ids" (some [])
  let st ← optStrField j "status" (some "active")
  Except.ok ⟨fn, ln, em, gr, bd, ps, cs, st⟩

/-- Validation of a request body against `UpdateStudent` (src/main.py): every
field optional defaulting to null; `status` is a plain `Optional[str]` with
no enumeration check. -/
def parseUpdateStudent (j : Doc) : Except String UpdateStudent := do
  let fn ← optStrField j "first_name" none
  let ln ← optStrField j "last_name" none
  let em ← optStrField j "email" none
  let gr ← optStrField j "grade" none
  let bd ← optStrField j "dob" none
  let ps ← optListField j "parent_ids" none
  let cs ← optListField j "class_ids" none
  let st ← optStrField j "status" none
  Except.ok ⟨fn, ln, em, gr, bd, ps, cs, st⟩

/-- The admissible values of the `status` field of the `Student` model in
src/schemas.py: `Literal["active", "inactive"]`. -/
def studentStatusLiteral : List String := ["active", "inactive"]

/-- Validation of the `status` field by the `Student` model of src/schemas.py:
a `Literal["active", "inactive"]` with default `"active"` — values outside
the enumeration are rejected. -/
def schemasStudentStatusField (j : Doc) : Except String String :=
  match getField j "status" with
  | none => Except.ok "active"
  | some (Value.str s) =>
    if s ∈ studentStatusLiteral then Except.ok s
    else Except.error "status: input should be active or inactive"
  | some _ => Except.error "status: input should be active or inactive"

/-! Laws of the dictionary, patch, and store operations. -/

/-- Reading back a freshly assigned key. -/
theorem getField_setField_same (d : Doc) (k : String) (v : Value) :
    getField (setField d k v) k = some v := by
  induction d with
  | nil => simp [setField, getField]
  | cons kv rest ih =>
    obtain ⟨k2, w⟩ := kv
    by_cases h : k2 = k
    · simp [setField, getField, h]
    · simp [setField, getField, h, ih]

/-- Assignment leaves other keys untouched. -/
theorem getField_setField_ne (d : Doc) (k k2 : String) (v : Value)
    (h : k ≠ k2) : getField (setField d k v) k2 = getField d k2 := by
  induction d with
  | nil => simp [setField, getField, h]
  | cons kv rest ih =>
    obtain ⟨k1, w⟩ := kv
    by_cases h1 : k1 = k
    · subst h1
      simp [setField, getField, h]
    · simp [setField, getField, h1, ih]

/-- A popped key is gone. -/
theorem getField_eraseField_same (d : Doc) (k : String) :
    getField (eraseField d k) k = none := by
  induction d with
  | nil => simp [eraseField, getField]
  | cons kv rest ih =>
    obtain ⟨k1, w⟩ := kv
    by_cases h : k1 = k
    · simpa [eraseField, h] using ih
    · simpa [eraseField, getField, h] using ih

/-- Popping a key leaves other keys untouched. -/
theorem getField_eraseField_ne (d : Doc) (k k2 : String)
    (h : k ≠ k2) : getField (eraseField d k) k2 = getField d k2 := by
  induction d with
  | nil => simp [eraseField, getField]
  | cons kv rest ih =>
    obtain ⟨k1, w⟩ := kv
    by_cases h1 : k1 = k
    · subst h1
      simp [eraseField, getField, h, ih]
    · by_cases h2 : k1 = k2
      · subst h2
        simp [eraseField, getField, h1, ih]
      · simp [eraseField, getField, h1, h2, ih]

/-- Assignment never produces the empty dict. -/
theorem setField_ne_nil (d : Doc) (k : String) (v : Value) :
    setField d k v ≠ [] := by
  cases d with
  | nil => simp [setField]
  | cons kv rest =>
    obtain ⟨k1, w⟩ := kv
    by_cases h : k1 = k <;> simp [setField, h]

/-- A key is unbound exactly when it is not among the keys. -/
theorem getField_eq_none_iff (d : Doc) (k : String) :
    getField d k = none ↔ k ∉ d.map Prod.fst := by
  induction d with
  | nil => simp [getField]
  | cons kv rest ih =>
    obtain ⟨k1, w⟩ := kv
    by_cases h : k1 = k
    · subst h
      simp [getField]
    · have hg : getField ((k1, w) :: rest) k = getField rest k := by
        simp [getField, h]
      rw [hg, ih, List.map_cons, List.mem_cons]
      constructor
      · intro hk
        simp only [not_or]
        exact ⟨fun hc => h hc.symm, hk⟩
      · intro hk
        simp only [not_or] at hk
        exact hk.2

/-- Unfolding of the patch application on a first field. -/
theorem applySet_cons (d : Doc) (k : String) (v : Value) (rest : Doc) :
    applySet d ((k, v) :: rest) = applySet (setField d k v) rest := rfl

/-- A patch leaves every key it does not mention untouched. -/
theorem getField_applySet_not_mem (upd : Doc) (d : Doc) (k : String) :
    k ∉ upd.map Prod.fst → getField (applySet d upd) k = getField d k := by
  induction upd generalizing d with
  | nil => intro _; rfl
  | cons kv rest ih =>
    intro h
    obtain ⟨k1, v1⟩ := kv
    simp only [List.map_cons, List.mem_cons] at h
    push_neg at h
    rw [applySet_cons, ih _ h.2, getField_setField_ne]
    exact Ne.symm h.1

/-- A patch with distinct keys writes exactly its own bindings. -/
theorem getField_applySet_of_get (upd : Doc) (d : Doc) (k : String) (v : Value) :
    (upd.map Prod.fst).Nodup → getField upd k = some v →
    getField (applySet d upd) k = some v := by
  induction upd generalizing d with
  | nil => intro _ h; simp [getField] at h
  | cons kv rest ih =>
    intro hnd h
    obtain ⟨k1, v1⟩ := kv
    simp only [List.map_cons, List.nodup_cons] at hnd
    by_cases hk : k1 = k
    · subst hk
      simp [getField] at h
      subst h
      rw [applySet_cons, getField_applySet_not_mem _ _ _ hnd.1,
        getField_setField_same]
    · simp [getField, hk] at h
      rw [applySet_cons]
      exact ih (setField d k1 v1) hnd.2 h

/-- When nothing matches the filter, `update_one` matches zero documents and
leaves the list as it was. -/
theorem updateFirst_no_match (docs : List Doc) (filt upd : Doc) :
    (∀ d ∈ docs, matchesFilter filt d = false) →
    updateFirst docs filt upd = (docs, 0) := by
  induction docs with
  | nil => intro _; rfl
  | cons d rest ih =>
    intro h
    have hd := h d (List.mem_cons_self d rest)
    simp [updateFirst, hd, ih (fun x hx => h x (List.mem_cons_of_mem d hx))]

/-- When nothing matches the filter, `delete_one` deletes zero documents and
leaves the list as it was. -/
theorem deleteFirst_no_match (docs : List Doc) (filt : Doc) :
    (∀ d ∈ docs, matchesFilter filt d = false) →
    deleteFirst docs filt = (docs, 0) := by
  induction docs with
  | nil => intro _; rfl
  | cons d rest ih =>
    intro h
    have hd := h d (List.mem_cons_self d rest)
    simp [deleteFirst, hd, ih (fun x hx => h x (List.mem_cons_of_mem d hx))]

/-- `update_one` patches exactly the first matching document. -/
theorem updateFirst_found (pre post : List Doc) (d filt upd : Doc) :
    (∀ x ∈ pre, matchesFilter filt x = false) → matchesFilter filt d = true →
    updateFirst (pre ++ d :: post) filt upd = (pre ++ applySet d upd :: post, 1) := by
  induction pre with
  | nil => intro _ hd; simp [updateFirst, hd]
  | cons a rest ih =>
    intro h hd
    have ha := h a (List.mem_cons_self a rest)
    simp [updateFirst, ha, ih (fun x hx => h x (List.mem_cons_of_mem a hx)) hd]

/-- Reading back a freshly written collection. -/
theorem getColl_setColl_same (s : Store) (c : String) (docs : List Doc) :
    getColl (setColl s c docs) c = docs := by
  induction s with
  | nil => simp [setColl, getColl]
  | cons e rest ih =>
    obtain ⟨name, d0⟩ := e
    by_cases h : name = c
    · simp [setColl, getColl, h]
    · simp [setColl, getColl, h, ih]

/-- Writing one collection leaves the others untouched. -/
theorem getColl_setColl_ne (s : Store) (c c2 : String) (docs : List Doc)
    (h : c ≠ c2) : getColl (setColl s c docs) c2 = getColl s c2 := by
  induction s with
  | nil => simp [setColl, getColl, h]
  | cons e rest ih =>
    obtain ⟨name, d0⟩ := e
    by_cases hn : name = c
    · subst hn
      simp [setColl, getColl, h]
    · simp [setColl, getColl, hn, ih]

/-- Writing a present collection back unchanged is the identity. -/
theorem setColl_getColl_self (s : Store) (c : String) :
    c ∈ s.map Prod.fst → setColl s c (getColl s c) = s := by
  induction s with
  | nil => intro h; simp at h
  | cons e rest ih =>
    intro h
    obtain ⟨name, d0⟩ := e
    by_cases hn : name = c
    · subst hn
      simp [setColl, getColl]
    · simp only [List.map_cons, List.mem_cons] at h
      rcases h with h | h
      · exact absurd h.symm hn
      · simp [setColl, getColl, hn, ih h]

/-- Evaluation of the two-field combined filters used by the handlers. -/
theorem matchesFilter_pair (d : Doc) (k1 k2 : String) (v1 v2 : Value) :
    matchesFilter [(k1, v1), (k2, v2)] d =
      (decide (getField d k1 = some v1) && decide (getField d k2 = some v2)) := by
  simp [matchesFilter]

/-- The keys of any `UpdateStudent` dump, in order. -/
theorem dumpUpdateStudent_keys (p : UpdateStudent) :
    (dumpUpdateStudent p).map Prod.fst =
      ["first_name", "last_name", "email", "grade", "dob",
       "parent_ids", "class_ids", "status"] := rfl

/-- The non-null projection of an update dump has pairwise distinct keys. -/
theorem nonNullFields_dump_nodup (p : UpdateStudent) :
    ((nonNullFields (dumpUpdateStudent p)).map Prod.fst).Nodup := by
  have hs : List.Sublist (nonNullFields (dumpUpdateStudent p)) (dumpUpdateStudent p) :=
    List.filter_sublist (dumpUpdateStudent p)
  refine List.Nodup.sublist (hs.map Prod.fst) ?_
  rw [dumpUpdateStudent_keys]
  decide

/-! Shaper helper lemmas. -/

/-- Shape of the shaper on a document carrying an internal identifier. -/
theorem doc_with_id_of_get (d : Doc) (v : Value) (h : getField d "_id" = some v) :
    doc_with_id d = setField (eraseField d "_id") "id" (Value.str (strOfValue v)) := by
  have hd : d ≠ [] := by
    intro he
    rw [he] at h
    simp [getField] at h
  simp [doc_with_id, hd, h]

/-- The shaper leaves documents without an internal identifier unchanged. -/
theorem doc_with_id_of_none (d : Doc) (h : getField d "_id" = none) :
    doc_with_id d = d := by
  by_cases hd : d = []
  · simp [doc_with_id, hd]
  · simp [doc_with_id, hd, h]

/-- The shaper is idempotent. -/
theorem doc_with_id_idem (d : Doc) : doc_with_id (doc_with_id d) = doc_with_id d := by
  cases hg : getField d "_id" with
  | none => rw [doc_with_id_of_none d hg, doc_with_id_of_none d hg]
  | some v =>
    rw [doc_with_id_of_get d v hg]
    apply doc_with_id_of_none
    rw [getField_setField_ne _ _ _ _ (by decide), getField_eraseField_same]

/-- Evaluation of a one-field Mongo filter. -/
theorem matchesFilter_single (d : Doc) (k : String) (v : Value) :
    matchesFilter [(k, v)] d = decide (getField d k = some v) := by
  simp [matchesFilter]

/-- C1: the spec claims every tenant-scoped list call without a tenant
identifier fails with a 400 validation error; in the code the 400
HTTPException raised by `_tenant_filter` is caught by the handlers' broad
`except Exception` and re-raised as a 503, so every such call actually
returns status 503, not 400. -/
theorem missing_tenant_list_returns_503 :
    (list_students 50 none none []).1 = Except.error (wrap503 missingTenant400) ∧
    (list_students 50 (some "") none []).1 = Except.error (wrap503 missingTenant400) ∧
    (list_students 50 none (some "") []).1 = Except.error (wrap503 missingTenant400) ∧
    (list_students 50 (some "") (some "") []).1 = Except.error (wrap503 missingTenant400) ∧
    (list_teachers 50 none none []).1 = Except.error (wrap503 missingTenant400) ∧
    (list_classes 50 none none []).1 = Except.error (wrap503 missingTenant400) ∧
    (list_announcements 20 none none []).1 = Except.error (wrap503 missingTenant400) ∧
    (list_invoices 50 none none []).1 = Except.error (wrap503 missingTenant400) ∧
    (wrap503 missingTenant400).status = 503 ∧
    (wrap503 missingTenant400).status ≠ 400 := by
  refine ⟨rfl, rfl, rfl, rfl, rfl, rfl, rfl, rfl, rfl, ?_⟩
  decide

/-- C9: the response shaper replaces the internal `_id` field by a public
string-form `id` field, returns null and empty inputs unchanged, and is
idempotent. -/
theorem doc_with_id_shaper_spec :
    doc_with_id_opt none = none ∧
    doc_with_id [] = [] ∧
    (∀ (d : Doc) (v : Value), getField d "_id" = some v →
      getField (doc_with_id d) "id" = some (Value.str (strOfValue v)) ∧
      getField (doc_with_id d) "_id" = none) ∧
    (∀ d : Doc, doc_with_id (doc_with_id d) = doc_with_id d) ∧
    (∀ od : Option Doc, doc_with_id_opt (doc_with_id_opt od) = doc_with_id_opt od) := by
  refine ⟨rfl, rfl, ?_, doc_with_id_idem, ?_⟩
  · intro d v h
    rw [doc_with_id_of_get d v h]
    constructor
    · exact getField_setField_same _ _ _
    · rw [getField_setField_ne _ _ _ _ (by decide), getField_eraseField_same]
  · intro od
    cases od with
    | none => rfl
    | some d => simp [doc_with_id_opt, doc_with_id_idem]

/-- Witness for C9 at a concrete document. -/
theorem doc_with_id_shaper_spec_witness :
    getField (doc_with_id [("_id", Value.oid "abc"), ("tenant_id", Value.str "t1")]) "id" =
      some (Value.str "abc") ∧
    getField (doc_with_id [("_id", Value.oid "abc"), ("tenant_id", Value.str "t1")]) "_id" =
      none :=
  doc_with_id_shaper_spec.2.2.1 [("_id", Value.oid "abc"), ("tenant_id", Value.str "t1")]
    (Value.oid "abc") (by decide)

/-- C6: payment creation succeeds and returns the new payment identifier for
every resolved tenant and payload, in particular also when `invoice_id` is
malformed or matches no invoice: the best-effort invoice write swallows every
failure. -/
theorem create_payment_always_succeeds (freshId t : String) (x q : Option String)
    (p : PaymentPayload) (s : Store)
    (ht : t ≠ "") (hr : resolveTenant x q = some t) :
    ∃ s2, create_payment freshId p q x s =
      (Except.ok [("id", Value.str freshId), ("message", Value.str "Payment recorded")], s2) := by
  simp only [create_payment]
  rw [hr]
  simp [tenant_filter, ht, create_document]

/-- Witness for C6: malformed invoice reference, empty store. -/
theorem create_payment_always_succeeds_witness :
    ∃ s2, create_payment "f1" ⟨"not-an-objectid", 5, "stripe", none⟩ none (some "t1") [] =
      (Except.ok [("id", Value.str "f1"), ("message", Value.str "Payment recorded")], s2) :=
  create_payment_always_succeeds "f1" "t1" (some "t1") none
    ⟨"not-an-objectid", 5, "stripe", none⟩ [] (by decide) (by decide)

/-- C8: update and delete with a malformed path identifier fail with the 400
raised by `_oid` while the combined filter is being built, before any store
operation, and the store is unchanged. -/
theorem malformed_id_update_delete_400 (sid t : String) (x q : Option String)
    (p : UpdateStudent) (s : Store)
    (ht : t ≠ "") (hr : resolveTenant x q = some t)
    (hbad : objectIdIsValid sid = false) :
    update_student sid p q x s = (Except.error ⟨400, "Invalid id"⟩, s) ∧
    delete_student sid q x s = (Except.error ⟨400, "Invalid id"⟩, s) := by
  constructor
  · simp only [update_student]
    rw [hr]
    simp [tenant_filter, ht, hbad]
  · simp only [delete_student]
    rw [hr]
    simp [tenant_filter, ht, hbad]

/-- Witness for C8 at a concrete malformed identifier. -/
theorem malformed_id_update_delete_400_witness :
    update_student "abc" {} none (some "t1") [("student", [])] =
      (Except.error ⟨400, "Invalid id"⟩, [("student", [])]) ∧
    delete_student "abc" none (some "t1") [("student", [])] =
      (Except.error ⟨400, "Invalid id"⟩, [("student", [])]) :=
  malformed_id_update_delete_400 "abc" "t1" (some "t1") none {} [("student", [])]
    (by decide) (by decide) (by decide)

/-- C3: update and delete on a valid identifier whose document lives under a
different tenant: the combined identifier-and-tenant filter matches zero
documents, the handler fails with a 404, and the store — in particular the
other tenant's document — is unchanged. -/
theorem cross_tenant_update_delete_404 (sid t : String) (x q : Option String)
    (p : UpdateStudent) (s : Store)
    (ht : t ≠ "") (hr : resolveTenant x q = some t)
    (hok : objectIdIsValid sid = true)
    (hmem : "student" ∈ s.map Prod.fst)
    (hcross : ∀ d ∈ getColl s "student",
      getField d "_id" = some (Value.oid (canonOid sid)) →
      getField d "tenant_id" ≠ some (Value.str t)) :
    update_student sid p q x s = (Except.error ⟨404, "Student not found"⟩, s) ∧
    delete_student sid q x s = (Except.error ⟨404, "Student not found"⟩, s) := by
  have hnm : ∀ d ∈ getColl s "student",
      matchesFilter [("_id", Value.oid (canonOid sid)), ("tenant_id", Value.str t)] d =
        false := by
    intro d hd
    rw [matchesFilter_pair]
    by_cases h1 : getField d "_id" = some (Value.oid (canonOid sid))
    · have h2 := hcross d hd h1
      simp [h1, h2]
    · simp [h1]
  constructor
  · simp only [update_student]
    rw [hr]
    simp only [tenant_filter, if_neg ht, optStr, update_one]
    rw [updateFirst_no_match _ _ _ hnm]
    simp [hok, setColl_getColl_self s "student" hmem]
  · simp only [delete_student]
    rw [hr]
    simp only [tenant_filter, if_neg ht, optStr, delete_one]
    rw [deleteFirst_no_match _ _ hnm]
    simp [hok, setColl_getColl_self s "student" hmem]

/-- Witness for C3: the only student with the targeted identifier belongs to
tenant t2, while the request resolves tenant t1. -/
theorem cross_tenant_update_delete_404_witness :
    update_student "aaaaaaaaaaaaaaaaaaaaaaaa" {} none (some "t1")
        [("student", [[("_id", Value.oid "aaaaaaaaaaaaaaaaaaaaaaaa"),
          ("tenant_id", Value.str "t2"), ("first_name", Value.str "Bob")]])] =
      (Except.error ⟨404, "Student not found"⟩,
        [("student", [[("_id", Value.oid "aaaaaaaaaaaaaaaaaaaaaaaa"),
          ("tenant_id", Value.str "t2"), ("first_name", Value.str "Bob")]])]) ∧
    delete_student "aaaaaaaaaaaaaaaaaaaaaaaa" none (some "t1")
        [("student", [[("_id", Value.oid "aaaaaaaaaaaaaaaaaaaaaaaa"),
          ("tenant_id", Value.str "t2"), ("first_name", Value.str "Bob")]])] =
      (Except.error ⟨404, "Student not found"⟩,
        [("student", [[("_id", Value.oid "aaaaaaaaaaaaaaaaaaaaaaaa"),
          ("tenant_id", Value.str "t2"), ("first_name", Value.str "Bob")]])]) :=
  cross_tenant_update_delete_404 "aaaaaaaaaaaaaaaaaaaaaaaa" "t1" (some "t1") none {}
    [("student", [[("_id", Value.oid "aaaaaaaaaaaaaaaaaaaaaaaa"),
      ("tenant_id", Value.str "t2"), ("first_name", Value.str "Bob")]])]
    (by decide) (by decide) (by decide) (by decide) (by decide)

/-- A create outcome succeeded and appended to the collection exactly one new
document whose `tenant_id` is the given tenant. -/
def storesTenant (result : Except HTTPError Doc × Store) (c : String)
    (base : Store) (t : String) : Prop :=
  ∃ resp d, result.1 = Except.ok resp ∧
    getColl result.2 c = getColl base c ++ [d] ∧
    getField d "tenant_id" = some (Value.str t)

/-- C2: every successful create stores the resolved tenant on the new
document. The payload models carry no `tenant_id` field — any `tenant_id` in
the client JSON body is dropped by validation (the student parse hypothesis
makes this explicit for an arbitrary body `j`) — and the handlers assign
`data["tenant_id"] = t` from the resolved tenant. -/
theorem create_stamps_resolved_tenant (freshId t : String) (x q : Option String)
    (s : Store) (j : Doc) (ps : CreateStudent)
    (hj : parseCreateStudent j = Except.ok ps)
    (pt : CreateTeacher) (pc : CreateClass) (pa : CreateAnnouncement)
    (pv : FeeInvoicePayload) (pp : PaymentPayload)
    (ht : t ≠ "") (hr : resolveTenant x q = some t) :
    storesTenant (create_student freshId ps q x s) "student" s t ∧
    storesTenant (create_teacher freshId pt q x s) "teacher" s t ∧
    storesTenant (create_class freshId pc q x s) "class" s t ∧
    storesTenant (create_announcement freshId pa q x s) "announcement" s t ∧
    storesTenant (create_invoice freshId pv q x s) "feeinvoice" s t ∧
    storesTenant (create_payment freshId pp q x s) "payment" s t := by
  refine ⟨?_, ?_, ?_, ?_, ?_, ?_⟩
  · simp only [create_student]
    rw [hr]
    simp only [tenant_filter, if_neg ht, optStr, create_document, storesTenant]
    refine ⟨_, _, rfl, getColl_setColl_same _ _ _, ?_⟩
    rw [getField_setField_ne _ _ _ _ (by decide), getField_setField_same]
  · simp only [create_teacher]
    rw [hr]
    simp only [tenant_filter, if_neg ht, optStr, create_document, storesTenant]
    refine ⟨_, _, rfl, getColl_setColl_same _ _ _, ?_⟩
    rw [getField_setField_ne _ _ _ _ (by decide), getField_setField_same]
  · simp only [create_class]
    rw [hr]
    simp only [tenant_filter, if_neg ht, optStr, create_document, storesTenant]
    refine ⟨_, _, rfl, getColl_setColl_same _ _ _, ?_⟩
    rw [getField_setField_ne _ _ _ _ (by decide), getField_setField_same]
  · simp only [create_announcement]
    rw [hr]
    simp only [tenant_filter, if_neg ht, optStr, create_document, storesTenant]
    refine ⟨_, _, rfl, getColl_setColl_same _ _ _, ?_⟩
    rw [getField_setField_ne _ _ _ _ (by decide), getField_setField_same]
  · simp only [create_invoice]
    rw [hr]
    simp only [tenant_filter, if_neg ht, optStr, create_document, storesTenant]
    refine ⟨_, _, rfl, getColl_setColl_same _ _ _, ?_⟩
    rw [getField_setField_ne _ _ _ _ (by decide), getField_setField_same]
  · simp only [create_payment]
    rw [hr]
    simp only [tenant_filter, if_neg ht, optStr, create_document, storesTenant]
    by_cases hv : objectIdIsValid pp.invoice_id
    · simp only [hv, if_true]
      refine ⟨_, setField (setField (dumpPayment pp) "tenant_id" (Value.str t)) "_id"
        (Value.oid freshId), rfl, ?_, ?_⟩
      · rw [update_one, getColl_setColl_ne _ _ _ _ (by decide),
          getColl_setColl_same]
      · rw [getField_setField_ne _ _ _ _ (by decide), getField_setField_same]
    · simp only [hv, if_false]
      refine ⟨_, _, rfl, getColl_setColl_same _ _ _, ?_⟩
      rw [getField_setField_ne _ _ _ _ (by decide), getField_setField_same]

/-- Witness for C2: client body smuggles a `tenant_id` of EVIL, the request
resolves tenant t1, and every create stores t1. -/
theorem create_stamps_resolved_tenant_witness :
    storesTenant (create_student "f1" { first_name := "Ana", last_name := "Lee" }
      none (some "t1") []) "student" [] "t1" ∧
    storesTenant (create_teacher "f1" { first_name := "Jo", last_name := "Ng", email := "a@b.c" }
      none (some "t1") []) "teacher" [] "t1" ∧
    storesTenant (create_class "f1" { name := "Algebra", code := "ALG1" }
      none (some "t1") []) "class" [] "t1" ∧
    storesTenant (create_announcement "f1" { title := "Hi", body := "There" }
      none (some "t1") []) "announcement" [] "t1" ∧
    storesTenant (create_invoice "f1" { student_id := "s1", amount := 100 }
      none (some "t1") []) "feeinvoice" [] "t1" ∧
    storesTenant (create_payment "f1" { invoice_id := "i1", amount := 100 }
      none (some "t1") []) "payment" [] "t1" :=
  create_stamps_resolved_tenant "f1" "t1" (some "t1") none []
    [("first_name", Value.str "Ana"), ("last_name", Value.str "Lee"),
     ("tenant_id", Value.str "EVIL")]
    { first_name := "Ana", last_name := "Lee" } rfl
    { first_name := "Jo", last_name := "Ng", email := "a@b.c" }
    { name := "Algebra", code := "ALG1" }
    { title := "Hi", body := "There" }
    { student_id := "s1", amount := 100 }
    { invoice_id := "i1", amount := 100 }
    (by decide) (by decide)

/-- C4: partial update. The handler keeps exactly the non-null fields of the
dumped payload and the store replaces exactly those fields of the matched
document, leaving every other field with its prior value. The payload is
required to patch at least one field: the store collaborator contract does
not cover an empty patch. -/
theorem partial_update_frame (sid t : String) (x q : Option String)
    (p : UpdateStudent) (s : Store) (pre post : List Doc) (d : Doc)
    (ht : t ≠ "") (hr : resolveTenant x q = some t)
    (hok : objectIdIsValid sid = true)
    (hcoll : getColl s "student" = pre ++ d :: post)
    (hpre : ∀ x2 ∈ pre,
      matchesFilter [("_id", Value.oid (canonOid sid)), ("tenant_id", Value.str t)] x2 =
        false)
    (hid : getField d "_id" = some (Value.oid (canonOid sid)))
    (hten : getField d "tenant_id" = some (Value.str t))
    (hne : nonNullFields (dumpUpdateStudent p) ≠ []) :
    update_student sid p q x s =
      (Except.ok [("id", Value.str sid), ("updated", Value.bool true)],
        setColl s "student"
          (pre ++ applySet d (nonNullFields (dumpUpdateStudent p)) :: post)) ∧
    (∀ k v, getField (nonNullFields (dumpUpdateStudent p)) k = some v →
      getField (applySet d (nonNullFields (dumpUpdateStudent p))) k = some v) ∧
    (∀ k, getField (nonNullFields (dumpUpdateStudent p)) k = none →
      getField (applySet d (nonNullFields (dumpUpdateStudent p))) k = getField d k) := by
  have hmatch : matchesFilter
      [("_id", Value.oid (canonOid sid)), ("tenant_id", Value.str t)] d = true := by
    rw [matchesFilter_pair]
    simp [hid, hten]
  refine ⟨?_, ?_, ?_⟩
  · simp only [update_student]
    rw [hr]
    simp only [tenant_filter, if_neg ht, optStr, update_one, hok, if_true]
    rw [hcoll, updateFirst_found _ _ _ _ _ hpre hmatch]
    simp
  · intro k v hk
    exact getField_applySet_of_get _ _ _ _ (nonNullFields_dump_nodup p) hk
  · intro k hk
    rw [getField_eq_none_iff] at hk
    exact getField_applySet_not_mem _ _ _ hk

/-- Witness for C4: a one-field update (status to inactive) on an existing
record under the right tenant; the untouched fields keep their values. -/
theorem partial_update_frame_witness :
    update_student "aaaaaaaaaaaaaaaaaaaaaaaa" { status := some "inactive" } none (some "t1")
        [("student", [[("_id", Value.oid "aaaaaaaaaaaaaaaaaaaaaaaa"),
          ("tenant_id", Value.str "t1"), ("first_name", Value.str "Ana"),
          ("status", Value.str "active")]])] =
      (Except.ok [("id", Value.str "aaaaaaaaaaaaaaaaaaaaaaaa"), ("updated", Value.bool true)],
        setColl [("student", [[("_id", Value.oid "aaaaaaaaaaaaaaaaaaaaaaaa"),
          ("tenant_id", Value.str "t1"), ("first_name", Value.str "Ana"),
          ("status", Value.str "active")]])] "student"
          ([] ++ applySet [("_id", Value.oid "aaaaaaaaaaaaaaaaaaaaaaaa"),
            ("tenant_id", Value.str "t1"), ("first_name", Value.str "Ana"),
            ("status", Value.str "active")]
            (nonNullFields (dumpUpdateStudent { status := some "inactive" })) :: [])) :=
  (partial_update_frame "aaaaaaaaaaaaaaaaaaaaaaaa" "t1" (some "t1") none
    { status := some "inactive" }
    [("student", [[("_id", Value.oid "aaaaaaaaaaaaaaaaaaaaaaaa"),
      ("tenant_id", Value.str "t1"), ("first_name", Value.str "Ana"),
      ("status", Value.str "active")]])]
    [] []
    [("_id", Value.oid "aaaaaaaaaaaaaaaaaaaaaaaa"), ("tenant_id", Value.str "t1"),
     ("first_name", Value.str "Ana"), ("status", Value.str "active")]
    (by decide) (by decide) (by decide) (by decide) (by simp) (by decide) (by decide)
    (by decide)).1

/-- C7: the best-effort invoice write of the payment handler filters by
identifier alone — no tenant condition and no amount comparison — so any
payment creation whose reference resolves to an existing invoice sets that
invoice's status to paid, whatever tenant the invoice belongs to and
whatever the amounts are. -/
theorem payment_marks_invoice_paid (freshId t : String) (x q : Option String)
    (p : PaymentPayload) (s : Store) (pre post : List Doc) (d : Doc)
    (ht : t ≠ "") (hr : resolveTenant x q = some t)
    (hok : objectIdIsValid p.invoice_id = true)
    (hcoll : getColl s "feeinvoice" = pre ++ d :: post)
    (hpre : ∀ x2 ∈ pre, getField x2 "_id" ≠ some (Value.oid (canonOid p.invoice_id)))
    (hid : getField d "_id" = some (Value.oid (canonOid p.invoice_id))) :
    ∃ resp s2, create_payment freshId p q x s = (Except.ok resp, s2) ∧
      getColl s2 "feeinvoice" =
        pre ++ setField d "status" (Value.str "paid") :: post ∧
      getField (setField d "status" (Value.str "paid")) "status" =
        some (Value.str "paid") := by
  have hpre2 : ∀ x2 ∈ pre,
      matchesFilter [("_id", Value.oid (canonOid p.invoice_id))] x2 = false := by
    intro x2 hx
    rw [matchesFilter_single]
    simp [hpre x2 hx]
  have hmatch : matchesFilter [("_id", Value.oid (canonOid p.invoice_id))] d = true := by
    rw [matchesFilter_single]
    simp [hid]
  have h1 : (create_payment freshId p q x s).1 =
      Except.ok [("id", Value.str freshId), ("message", Value.str "Payment recorded")] := by
    simp only [create_payment]
    rw [hr]
    simp [tenant_filter, ht, create_document]
  have h2 : getColl (create_payment freshId p q x s).2 "feeinvoice" =
      pre ++ setField d "status" (Value.str "paid") :: post := by
    simp only [create_payment]
    rw [hr]
    simp only [tenant_filter, if_neg ht, optStr, hok, if_true, update_one,
      create_document]
    rw [getColl_setColl_ne _ "payment" "feeinvoice" _ (by decide), hcoll,
      updateFirst_found _ _ _ _ _ hpre2 hmatch]
    rw [getColl_setColl_same]
    rfl
  exact ⟨_, _, Prod.ext h1 rfl, h2, getField_setField_same _ _ _⟩

/-- Witness for C7: the referenced invoice belongs to tenant t2 with amount
999 while the payment is under tenant t1 with amount 5; the invoice is
still marked paid. -/
theorem payment_marks_invoice_paid_witness :
    ∃ resp s2, create_payment "f1"
        { invoice_id := "bbbbbbbbbbbbbbbbbbbbbbbb", amount := 5 } none (some "t1")
        [("feeinvoice", [[("_id", Value.oid "bbbbbbbbbbbbbbbbbbbbbbbb"),
          ("tenant_id", Value.str "t2"), ("amount", Value.num 999),
          ("status", Value.str "open")]])] =
      (Except.ok resp, s2) ∧
      getColl s2 "feeinvoice" =
        [] ++ setField [("_id", Value.oid "bbbbbbbbbbbbbbbbbbbbbbbb"),
          ("tenant_id", Value.str "t2"), ("amount", Value.num 999),
          ("status", Value.str "open")] "status" (Value.str "paid") :: [] ∧
      getField (setField [("_id", Value.oid "bbbbbbbbbbbbbbbbbbbbbbbb"),
        ("tenant_id", Value.str "t2"), ("amount", Value.num 999),
        ("status", Value.str "open")] "status" (Value.str "paid")) "status" =
        some (Value.str "paid") :=
  payment_marks_invoice_paid "f1" "t1" (some "t1") none
    { invoice_id := "bbbbbbbbbbbbbbbbbbbbbbbb", amount := 5 }
    [("feeinvoice", [[("_id", Value.oid "bbbbbbbbbbbbbbbbbbbbbbbb"),
      ("tenant_id", Value.str "t2"), ("amount", Value.num 999),
      ("status", Value.str "open")]])]
    [] []
    [("_id", Value.oid "bbbbbbbbbbbbbbbbbbbbbbbb"), ("tenant_id", Value.str "t2"),
     ("amount", Value.num 999), ("status", Value.str "open")]
    (by decide) (by decide) (by decide) (by decide) (by simp) (by decide)

/-! The concrete round-trip scenario: POST /students under tenant t1, then
GET /students under the same tenant. -/

/-- Store after the scenario POST: one student created under tenant t1 from
the payload with first name Ana and last name Lee, all other fields left to
their model defaults. -/
def scenarioStore : Store :=
  (create_student "64a0c2f5e1d4a9b8c7d6e5f4"
    { first_name := "Ana", last_name := "Lee" } none (some "t1") []).2

/-- Response of the follow-up GET /students with the same tenant header. -/
def scenarioList : Except HTTPError (List Doc) :=
  (list_students 50 none (some "t1") scenarioStore).1

/-- The single entity of the scenario GET response, spelled out. -/
def scenarioDoc : Doc :=
  [("first_name", Value.str "Ana"), ("last_name", Value.str "Lee"),
   ("email", Value.null), ("grade", Value.null), ("dob", Value.null),
   ("parent_ids", Value.arr []), ("class_ids", Value.arr []),
   ("status", Value.str "active"), ("tenant_id", Value.str "t1"),
   ("id", Value.str "64a0c2f5e1d4a9b8c7d6e5f4")]

/-- C5 counterexample: the claim says `tenant_id` is absent from the returned
entity, but the shaper only renames `_id`; the stored `tenant_id` field stays
in the response, equal to t1. -/
theorem scenario_tenant_id_present :
    scenarioList = Except.ok [scenarioDoc] ∧
    getField scenarioDoc "tenant_id" = some (Value.str "t1") := by
  constructor
  · rfl
  · decide

/-- C5 amended: the POST succeeds with the documented body, the follow-up GET
returns exactly one entity, with `id` present as a string, no `_id`, the
default status active — and with `tenant_id` present (equal to t1), not
absent as claimed. -/
theorem scenario_round_trip :
    (create_student "64a0c2f5e1d4a9b8c7d6e5f4"
        { first_name := "Ana", last_name := "Lee" } none (some "t1") []).1 =
      Except.ok [("id", Value.str "64a0c2f5e1d4a9b8c7d6e5f4"),
        ("message", Value.str "Student created")] ∧
    scenarioList = Except.ok [scenarioDoc] ∧
    getField scenarioDoc "id" = some (Value.str "64a0c2f5e1d4a9b8c7d6e5f4") ∧
    getField scenarioDoc "_id" = none ∧
    getField scenarioDoc "status" = some (Value.str "active") ∧
    getField scenarioDoc "tenant_id" = some (Value.str "t1") := by
  refine ⟨rfl, rfl, ?_, ?_, ?_, ?_⟩ <;> decide

/-- C10 counterexample: the claim says creation constrains `status` to the
active/inactive enumeration, but the creation payload model `CreateStudent`
types `status` as a plain optional string: an out-of-enumeration value
passes creation validation unchanged. -/
theorem create_status_not_constrained :
    parseCreateStudent
        [("first_name", Value.str "Ana"), ("last_name", Value.str "Lee"),
         ("status", Value.str "weird")] =
      Except.ok { first_name := "Ana", last_name := "Lee", status := some "weird" } ∧
    "weird" ∉ studentStatusLiteral := by
  constructor
  · rfl
  · decide

/-- C10 amended: the update payload model performs no enumeration check on
`status` — any string value passes validation and, when the target record
exists under the resolved tenant, is stored verbatim; the creation payload
model likewise accepts any string, the enumeration living only in the
`Student` model of src/schemas.py, which does reject values outside it. -/
theorem update_status_no_enum (sv sid t : String) (x q : Option String)
    (s : Store) (d : Doc)
    (ht : t ≠ "") (hr : resolveTenant x q = some t)
    (hok : objectIdIsValid sid = true)
    (hcoll : getColl s "student" = [d])
    (hid : getField d "_id" = some (Value.oid (canonOid sid)))
    (hten : getField d "tenant_id" = some (Value.str t)) :
    parseUpdateStudent [("status", Value.str sv)] = Except.ok { status := some sv } ∧
    parseCreateStudent
        [("first_name", Value.str "A"), ("last_name", Value.str "B"),
         ("status", Value.str sv)] =
      Except.ok { first_name := "A", last_name := "B", status := some sv } ∧
    (∃ resp, update_student sid { status := some sv } q x s =
      (Except.ok resp,
        setColl s "student"
          [applySet d (nonNullFields (dumpUpdateStudent { status := some sv }))]) ∧
      getField (applySet d (nonNullFields (dumpUpdateStudent { status := some sv })))
          "status" = some (Value.str sv)) ∧
    (sv ∉ studentStatusLiteral →
      ∃ msg, schemasStudentStatusField [("status", Value.str sv)] = Except.error msg) := by
  refine ⟨rfl, rfl, ?_, ?_⟩
  · have hmatch : matchesFilter
        [("_id", Value.oid (canonOid sid)), ("tenant_id", Value.str t)] d = true := by
      rw [matchesFilter_pair]
      simp [hid, hten]
    refine ⟨[("id", Value.str sid), ("updated", Value.bool true)], ?_, ?_⟩
    · simp only [update_student]
      rw [hr]
      simp only [tenant_filter, if_neg ht, optStr, update_one, hok, if_true]
      rw [hcoll]
      have hfound := updateFirst_found [] [] d
        [("_id", Value.oid (canonOid sid)), ("tenant_id", Value.str t)]
        (nonNullFields (dumpUpdateStudent { status := some sv }))
        (by intro x2 hx; simp at hx) hmatch
      simp only [List.nil_append] at hfound
      rw [hfound]
      simp
    · have hup : nonNullFields (dumpUpdateStudent
          { first_name := none, last_name := none, email := none, grade := none,
            dob := none, parent_ids := none, class_ids := none, status := some sv }) =
          [("status", Value.str sv)] := rfl
      rw [hup]
      exact getField_applySet_of_get _ _ _ _ (by simp) (by simp [getField])
  · intro hnot
    refine ⟨"status: input should be active or inactive", ?_⟩
    simp [schemasStudentStatusField, getField, hnot]

/-- Witness for the amended C10 at the out-of-enumeration value weird. -/
theorem update_status_no_enum_witness :
    parseUpdateStudent [("status", Value.str "weird")] =
      Except.ok { status := some "weird" } ∧
    parseCreateStudent
        [("first_name", Value.str "A"), ("last_name", Value.str "B"),
         ("status", Value.str "weird")] =
      Except.ok { first_name := "A", last_name := "B", status := some "weird" } ∧
    (∃ resp, update_student "cccccccccccccccccccccccc" { status := some "weird" }
        none (some "t1")
        [("student", [[("_id", Value.oid "cccccccccccccccccccccccc"),
          ("tenant_id", Value.str "t1"), ("status", Value.str "active")]])] =
      (Except.ok resp,
        setColl [("student", [[("_id", Value.oid "cccccccccccccccccccccccc"),
          ("tenant_id", Value.str "t1"), ("status", Value.str "active")]])] "student"
          [applySet [("_id", Value.oid "cccccccccccccccccccccccc"),
            ("tenant_id", Value.str "t1"), ("status", Value.str "active")]
            (nonNullFields (dumpUpdateStudent { status := some "weird" }))]) ∧
      getField (applySet [("_id", Value.oid "cccccccccccccccccccccccc"),
          ("tenant_id", Value.str "t1"), ("status", Value.str "active")]
          (nonNullFields (dumpUpdateStudent { status := some "weird" })))
        "status" = some (Value.str "weird")) ∧
    ("weird" ∉ studentStatusLiteral →
      ∃ msg, schemasStudentStatusField [("status", Value.str "weird")] =
        Except.error msg) :=
  update_status_no_enum "weird" "cccccccccccccccccccccccc" "t1" (some "t1") none
    [("student", [[("_id", Value.oid "cccccccccccccccccccccccc"),
      ("tenant_id", Value.str "t1"), ("status", Value.str "active")]])]
    [("_id", Value.oid "cccccccccccccccccccccccc"), ("tenant_id", Value.str "t1"),
     ("status", Value.str "active")]
    (by decide) (by decide) (by decide) (by decide) (by decide) (by decide)
